import Mathlib

/-!
Shallow embedding of the hooklift/oauth2 authorization-server core
(src/authorizations.go, src/tokens.go, src/error.go, src/types/types.go,
the resource gate of src/unnamed/part_004 and the helper package of
src/unnamed/part_014), together with theorems settling the frozen claims
about it.

Modelling conventions:
  * Go's `(value, error)` returns are `Except GoErr value`; a nil-error
    return of a zero-valued struct is `.ok` of the zero value.
  * The provider interface is a record of result functions, so theorems
    quantify over every provider behaviour.
  * `net/url.Parse` is not reimplemented: the authorization handlers take
    an explicit `parse` function, and concrete instances use `goUrlParse`,
    a model adequate for the concrete URL strings appearing here.
  * Response writing (`render.HTML`, `render.JSON`, `http.Redirect`,
    `render.Unauthorized`) is modelled by returning a value describing the
    one response the handler writes; headers and templates are out of the
    model, the (status, data) pair is kept.
  * `time.Duration` values are `Nat`; they are passed through, never
    inspected by the core.
-/

namespace OAuth2

/-- Go error values: only their message is observable to the core. -/
abbrev GoErr := String

deriving instance DecidableEq for Except

/-- types.Scope from src/types/types.go: an identifier and a description. -/
structure Scope where
  id : String
  description : String
deriving DecidableEq, Repr

/-- types.Scopes: a list of scopes. -/
abbrev Scopes := List Scope

/-- The slice of net/url.URL the core reads or writes: scheme, the
host-and-path part (`base`), the query pairs and the raw fragment. -/
structure URL where
  scheme : String
  base : String
  query : List (String × String)
  fragment : String
deriving DecidableEq, Repr

/-- The zero url.URL value (what `url.Parse ""` yields). -/
def URL.zero : URL := { scheme := "", base := "", query := [], fragment := "" }

/-- Rendering of url.Values.Encode, without percent-escaping and key
sorting: the core only compares the result with itself or embeds it. -/
def encodeQuery (q : List (String × String)) : String :=
  String.intercalate "&" (q.map (fun kv => kv.1 ++ "=" ++ kv.2))

/-- url.Values.Set: replaces every value of the key, or appends the pair. -/
def setParam (q : List (String × String)) (k v : String) : List (String × String) :=
  if q.any (fun kv => kv.1 = k) then
    q.map (fun kv => if kv.1 = k then (k, v) else kv)
  else q ++ [(k, v)]

/-- url.URL.String(): scheme://base?query#fragment, with empty parts
omitted as Go omits them. -/
def URL.toString (u : URL) : String :=
  (if u.scheme = "" then "" else u.scheme ++ "://") ++ u.base
    ++ (if u.query = [] then "" else "?" ++ encodeQuery u.query)
    ++ (if u.fragment = "" then "" else "#" ++ u.fragment)

/-- types.Client from src/types/types.go. Go's pointer-valued URL fields
are structural here; the zero client stands for `types.Client{}`. -/
structure Client where
  id : String
  name : String
  description : String
  logoURL : URL
  homepageURL : URL
  redirectURL : URL
deriving DecidableEq, Repr

/-- The zero client value `types.Client{}`. -/
def Client.zero : Client :=
  { id := "", name := "", description := "", logoURL := URL.zero,
    homepageURL := URL.zero, redirectURL := URL.zero }

/-- types.Grant. The structure declaration itself is absent from src/ (the
staged src/types/types.go is an older revision carrying `GrantCode`); its
fields are reconstructed from every use in src/tokens.go and
src/authorizations.go (`.Code`, `.ClientID`, `.RedirectURL`, `.Scopes`,
`.IsUsed`, `.IsExpired`, `.IsRevoked`) and spec section 3. -/
structure Grant where
  code : String
  clientID : String
  redirectURL : URL
  scopes : Scopes
  isUsed : Bool
  isExpired : Bool
  isRevoked : Bool
deriving DecidableEq, Repr

/-- The zero grant value `types.Grant{}`. -/
def Grant.zero : Grant :=
  { code := "", clientID := "", redirectURL := URL.zero, scopes := [],
    isUsed := false, isExpired := false, isRevoked := false }

/-- types.Token from src/types/types.go (the `Scopes` field doubles for
the `Scope` spelling used by src/tokens.go). `status` carries the
TokenStatus string. -/
structure Token where
  clientID : String
  value : String
  type : String
  expiresIn : String
  refreshToken : String
  scopes : Scopes
  status : String
deriving DecidableEq, Repr

/-- The zero token value `types.Token{}`. -/
def Token.zero : Token :=
  { clientID := "", value := "", type := "", expiresIn := "",
    refreshToken := "", scopes := [], status := "" }

/-- types.TokenExpired. -/
def TokenExpired : String := "expired"

/-- types.TokenRevoked. -/
def TokenRevoked : String := "revoked"

/-- types.AuthzError from src/types/types.go. -/
structure AuthzError where
  code : String
  description : String
  uri : String
  state : String
deriving DecidableEq, Repr

/-- strings.Contains: does `hay` contain `needle` as a substring. -/
def strContains (hay needle : String) : Bool :=
  decide (needle.data <:+: hay.data)

/-- strings.HasPrefix / strings.TrimPrefix composed as the gate uses them:
strip the prefix when present, else return the string unchanged. -/
def stripBearer (s pre : String) : String :=
  if pre.isPrefixOf s then s.drop pre.length else s

/-- pkg.StringifyScopes from src/unnamed/part_014: concatenates each id
with a trailing space and removes the final space; empty input gives "". -/
def StringifyScopes (scopes : Scopes) : String :=
  if scopes.length ≤ 0 then ""
  else String.mk ((scopes.foldl (fun acc v => acc ++ v.id ++ " ") "").data.dropLast)

/-- Modelled from the spec: the `types.Scopes.Encode` method called by the
resource gate (src/unnamed/part_004) is not among the staged sources; per
spec section 4.2 the scope helper "joins scope ids with single spaces",
exactly what the in-src pkg.StringifyScopes does, so it is defined as that
function. -/
def Scopes.encode (scopes : Scopes) : String := StringifyScopes scopes

/-- Go map read `m[k]` on a string-keyed map built from an association
list: the value, or the zero string. -/
def mapGet (m : List (String × String)) (k : String) : String :=
  (m.lookup k).getD ""

/-- Split a character list at every `/` (structural recursion, so the
kernel can evaluate it; String.splitOn is well-founded and cannot). -/
def splitSlash : List Char → List Char → List (List Char)
  | [], acc => [acc.reverse]
  | c :: rest, acc =>
    if c = '/' then acc.reverse :: splitSlash rest []
    else splitSlash rest (c :: acc)

/-- path.Base for the non-degenerate paths the token endpoint sees: the
last non-empty `/`-separated segment ("/" when there is none). -/
def pathBase (p : String) : String :=
  match (((splitSlash p.data []).map String.mk).filter (fun s => s ≠ "")).getLast? with
  | some s => s
  | none => "/"

/-! ## Error model: src/error.go -/

/-- ErrRedirectURLMismatch. -/
def ErrRedirectURLMismatch : AuthzError :=
  { code := "access_denied"
    description := "3rd-party client app provided a redirect_uri that does not match the URI registered for this client in our database."
    uri := "", state := "" }

/-- ErrRedirectURLInvalid. -/
def ErrRedirectURLInvalid : AuthzError :=
  { code := "access_denied"
    description := "3rd-party client app provided an invalid redirect_uri. It does not comply with http://tools.ietf.org/html/rfc3986#section-4.3 or does not use HTTPS."
    uri := "", state := "" }

/-- ErrClientIDMissing. -/
def ErrClientIDMissing : AuthzError :=
  { code := "unauthorized_client"
    description := "3rd-party client app didn't send us its client ID."
    uri := "", state := "" }

/-- ErrClientIDNotFound. -/
def ErrClientIDNotFound : AuthzError :=
  { code := "unauthorized_client"
    description := "3rd-party client app requesting access to your resources was not found in our database."
    uri := "", state := "" }

/-- ErrUnauthorizedClient. -/
def ErrUnauthorizedClient : AuthzError :=
  { code := "unauthorized_client"
    description := "You must provide an authorization header with your client credentials."
    uri := "", state := "" }

/-- ErrUnsupportedGrantType. -/
def ErrUnsupportedGrantType : AuthzError :=
  { code := "unsupported_grant_type"
    description := "grant_type provided is not supported by this authorization server."
    uri := "", state := "" }

/-- ErrInvalidGrant. -/
def ErrInvalidGrant : AuthzError :=
  { code := "invalid_grant"
    description := "The provided authorization grant (e.g., authorization code, resource owner credentials) or refresh token is invalid, expired, revoked, does not match the redirection URI used in the authorization request, or was issued to another client."
    uri := "", state := "" }

/-- ErrUnathorizedUser (the source's spelling). -/
def ErrUnathorizedUser : AuthzError :=
  { code := "access_denied"
    description := "Resource owner credentials are invalid."
    uri := "", state := "" }

/-- ErrInvalidScope. -/
def ErrInvalidScope : AuthzError :=
  { code := "invalid_scope"
    description := "Scope exceeds the scope granted by the resource owner."
    uri := "", state := "" }

/-- ErrClientIDMismatch. -/
def ErrClientIDMismatch : AuthzError :=
  { code := "invalid_request"
    description := "Authenticated client did not generate refresh token used."
    uri := "", state := "" }

/-- ErrUnsupportedTokenType. -/
def ErrUnsupportedTokenType : AuthzError :=
  { code := "invalid_token"
    description := "Unsupported token type."
    uri := "", state := "" }

/-- ErrAccessTokenRequired. -/
def ErrAccessTokenRequired : AuthzError :=
  { code := "invalid_request"
    description := "An access token is required to access this resource."
    uri := "", state := "" }

/-- ErrInvalidToken. -/
def ErrInvalidToken : AuthzError :=
  { code := "invalid_token"
    description := "Access token expired or was revoked."
    uri := "", state := "" }

/-- ErrInsufficientScope. -/
def ErrInsufficientScope : AuthzError :=
  { code := "insufficient_scope"
    description := "The request requires higher privileges than provided by the access token."
    uri := "", state := "" }

/-- EncodeErrInURI from src/error.go: writes the error's fields into the
URL's query. -/
def EncodeErrInURI (u : URL) (err : AuthzError) : URL :=
  let q := setParam u.query "error" err.code
  let q := if err.description ≠ "" then setParam q "error_description" err.description else q
  let q := if err.state ≠ "" then setParam q "state" err.state else q
  let q := if err.uri ≠ "" then setParam q "error_uri" err.uri else q
  { u with query := q }

/-- ErrUnsupportedResponseType from src/error.go. -/
def ErrUnsupportedResponseType (state : String) : AuthzError :=
  { code := "unsupported_response_type"
    description := "Authorization server does not support obtaining an authorization code using this authorization flow."
    uri := "", state := state }

/-- ErrStateRequired from src/error.go. -/
def ErrStateRequired (state : String) : AuthzError :=
  { code := "invalid_request"
    description := "state parameter is required by this authorization server."
    uri := "", state := state }

/-- ErrScopeRequired from src/error.go. -/
def ErrScopeRequired (state : String) : AuthzError :=
  { code := "invalid_request"
    description := "scope parameter is required by this authorization server."
    uri := "", state := state }

/-- The fixed description ErrServerError always carries (a Go raw string
with an embedded newline and tabs). -/
def serverErrorDescription : String :=
  "The authorization server encountered an unexpected condition that\n\t\tprevented it from fulfilling the request."

/-- ErrServerError from src/error.go: logs the underlying error and
returns a fixed-text server_error; the message is never copied into the
returned error. -/
def ErrServerError (state : String) (_err : GoErr) : AuthzError :=
  { code := "server_error", description := serverErrorDescription,
    uri := "", state := state }

/-! ## Provider port (src/unnamed/part_004 Provider interface) -/

/-- The Provider interface, as a record of result functions: each field
gives the value-and-error outcome of the corresponding provider call, so
theorems quantify over every provider behaviour. `refreshToken` is the
interface's RefreshToken (the spec's refresh_token_op). -/
structure Provider where
  authenticateClient : String → String → Except GoErr Client
  authenticateUser : String → String → Bool
  clientInfo : String → Except GoErr Client
  grantInfo : String → Except GoErr Grant
  tokenInfo : String → Except GoErr Token
  scopesInfo : String → Except GoErr Scopes
  resourceScopes : URL → Except GoErr Scopes
  genGrant : Client → Scopes → Nat → Except GoErr Grant
  genToken : Grant → Client → Bool → Nat → Except GoErr Token
  revokeToken : String → Option GoErr
  refreshToken : Token → Scopes → Except GoErr Token
  isUserAuthenticated : Bool

/-- The config fields the embedded handlers read (src/unnamed/part_004
`config`; template and endpoint paths are out of the model). -/
structure Config where
  provider : Provider
  loginURL : URL
  loginRedirectParam : String
  authzExpiration : Nat
  tokenExpiration : Nat

/-! ## Requests and responses -/

/-- An HTTP request to the token endpoint: the Basic-Auth credentials
(`none` when the ok flag of req.BasicAuth() is false), the parsed form
values and the URL path (for DELETE revocation). -/
structure TokenRequest where
  basicAuth : Option (String × String)
  form : List (String × String)
  urlPath : String
deriving DecidableEq, Repr

/-- req.FormValue: first value of the key, or the empty string. -/
def formValue (req : TokenRequest) (k : String) : String :=
  mapGet req.form k

/-- The JSON body render.JSON writes: an error, a token, or nothing. -/
inductive JSONBody
  | err (e : AuthzError)
  | token (t : Token)
  | empty
deriving DecidableEq, Repr

/-- One render.JSON call: status and body. -/
structure JSONResponse where
  status : Nat
  body : JSONBody
deriving DecidableEq, Repr

/-- Shorthand for render.JSON(w, Options{Status: s, Data: d}). -/
def jsonResp (s : Nat) (d : JSONBody) : JSONResponse := ⟨s, d⟩

/-- An HTTP request to the authorization endpoint: method, the combined
query/form values FormValue draws from, and req.URL.String() (used for
the login redirect). -/
structure AuthzRequest where
  method : String
  form : List (String × String)
  urlString : String
deriving DecidableEq, Repr

/-- req.FormValue for the authorization endpoint. -/
def aformValue (req : AuthzRequest) (k : String) : String :=
  mapGet req.form k

/-- AuthzData from src/authorizations.go: the data bound into the consent
template. -/
structure AuthzData where
  client : Client
  scopes : Scopes
  errors : List AuthzError
  grantType : String
  state : String
deriving DecidableEq, Repr

/-- AuthzData{Errors: errs}: the zero value with only the error list set,
exactly what the early-failure renders construct. -/
def AuthzData.ofErrors (errs : List AuthzError) : AuthzData :=
  { client := Client.zero, scopes := [], errors := errs, grantType := "", state := "" }

/-- The one response an authorization-endpoint handler writes: a rendered
HTML page (render.HTML: status and template data) or an http.Redirect
(status and the structured Location URL). -/
inductive AuthzResponse
  | html (status : Nat) (data : AuthzData)
  | redirect (status : Nat) (location : URL)
deriving DecidableEq, Repr

/-! ## Token endpoint: src/tokens.go -/

/-- authCodeGrant2 from src/tokens.go: the authorization_code exchange,
after client authentication. Note on the empty-code branch: the source
assigns "Authorization code can't be empty." to the Description of a local
copy `err` of ErrUnauthorizedClient but then renders the unmodified
package-level ErrUnauthorizedClient, so the response carries the
package-level description; the embedding reproduces the rendered value. -/
def authCodeGrant2 (cfg : Config) (cinfo : Client) (req : TokenRequest) : JSONResponse :=
  let code := formValue req "code"
  if code = "" then
    jsonResp 400 (.err ErrUnauthorizedClient)
  else
    match cfg.provider.grantInfo code with
    | .error e => jsonResp 400 (.err { ErrInvalidGrant with description := e })
    | .ok grantCode =>
      if grantCode.isRevoked || grantCode.isExpired || grantCode.isUsed then
        jsonResp 400 (.err { ErrInvalidGrant with
          description := "Grant code was revoked, expired or already used." })
      else if cinfo.redirectURL.toString ≠ grantCode.redirectURL.toString then
        jsonResp 400 (.err { ErrInvalidGrant with
          description := "Grant code was generated for a different redirect URI." })
      else if grantCode.clientID ≠ cinfo.id then
        jsonResp 400 (.err { ErrInvalidGrant with
          description := "Grant code was generated for a different client ID." })
      else
        match cfg.provider.genToken grantCode cinfo true cfg.tokenExpiration with
        | .error e => jsonResp 500 (.err (ErrServerError "" e))
        | .ok token => jsonResp 200 (.token token)

/-- resourceOwnerCredentialsGrant from src/tokens.go. -/
def resourceOwnerCredentialsGrant (cfg : Config) (cinfo : Client) (req : TokenRequest) :
    JSONResponse :=
  if !cfg.provider.authenticateUser (formValue req "username") (formValue req "password") then
    jsonResp 400 (.err ErrUnathorizedUser)
  else
    let scope := formValue req "scope"
    let scopesRes : Except JSONResponse Scopes :=
      if scope ≠ "" then
        match cfg.provider.scopesInfo scope with
        | .error e => .error (jsonResp 400 (.err (ErrServerError "" e)))
        | .ok scopes => .ok scopes
      else .ok []
    match scopesRes with
    | .error r => r
    | .ok scopes =>
      let noAuthzGrant := { Grant.zero with scopes := scopes }
      match cfg.provider.genToken noAuthzGrant cinfo true cfg.tokenExpiration with
      | .error e => jsonResp 500 (.err (ErrServerError "" e))
      | .ok token => jsonResp 200 (.token token)

/-- clientCredentialsGrant from src/tokens.go: like the password grant
without user authentication, and with no refresh token. -/
def clientCredentialsGrant (cfg : Config) (cinfo : Client) (req : TokenRequest) :
    JSONResponse :=
  let scope := formValue req "scope"
  let scopesRes : Except JSONResponse Scopes :=
    if scope ≠ "" then
      match cfg.provider.scopesInfo scope with
      | .error e => .error (jsonResp 400 (.err (ErrServerError "" e)))
      | .ok scopes => .ok scopes
    else .ok []
  match scopesRes with
  | .error r => r
  | .ok scopes =>
    let noAuthzGrant := { Grant.zero with scopes := scopes }
    match cfg.provider.genToken noAuthzGrant cinfo false cfg.tokenExpiration with
    | .error e => jsonResp 500 (.err (ErrServerError "" e))
    | .ok token => jsonResp 200 (.token token)

/-- refreshToken from src/tokens.go. The scope loop returns ErrInvalidScope
at the first requested scope whose id is not a substring
(strings.Contains) of the stringified stored scopes; that early-returning
loop is expressed with List.all, which yields the same response. -/
def refreshToken (cfg : Config) (cinfo : Client) (req : TokenRequest) : JSONResponse :=
  let code := formValue req "refresh_token"
  match cfg.provider.tokenInfo code with
  | .error e => jsonResp 500 (.err (ErrServerError "" e))
  | .ok token =>
    let scope := formValue req "scope"
    let scopesRes : Except JSONResponse Scopes :=
      if scope ≠ "" then
        match cfg.provider.scopesInfo scope with
        | .error e => .error (jsonResp 500 (.err (ErrServerError "" e)))
        | .ok scopes =>
          let tscopes := StringifyScopes token.scopes
          if scopes.all (fun s => strContains tscopes s.id) then .ok scopes
          else .error (jsonResp 400 (.err ErrInvalidScope))
      else .ok []
    match scopesRes with
    | .error r => r
    | .ok scopes0 =>
      let scopes := if scopes0.length = 0 then token.scopes else scopes0
      if token.clientID ≠ cinfo.id then
        jsonResp 400 (.err ErrClientIDMismatch)
      else
        match cfg.provider.refreshToken token scopes with
        | .error e => jsonResp 500 (.err (ErrServerError "" e))
        | .ok newToken => jsonResp 200 (.token newToken)

/-- IssueToken from src/tokens.go: client authentication, then dispatch on
grant_type. The source calls AuthenticateClient with the (possibly empty)
Basic-Auth credentials and rejects when the ok flag is false or the
provider errs. -/
def IssueToken (cfg : Config) (req : TokenRequest) : JSONResponse :=
  let username := (req.basicAuth.map Prod.fst).getD ""
  let password := (req.basicAuth.map Prod.snd).getD ""
  match req.basicAuth, cfg.provider.authenticateClient username password with
  | none, _ => jsonResp 400 (.err ErrUnauthorizedClient)
  | some _, .error _ => jsonResp 400 (.err ErrUnauthorizedClient)
  | some _, .ok cinfo =>
    match formValue req "grant_type" with
    | "authorization_code" => authCodeGrant2 cfg cinfo req
    | "client_credentials" => clientCredentialsGrant cfg cinfo req
    | "password" => resourceOwnerCredentialsGrant cfg cinfo req
    | "refresh_token" => refreshToken cfg cinfo req
    | _ => jsonResp 400 (.err ErrUnsupportedGrantType)

/-- RevokeToken from src/tokens.go: DELETE revocation (RFC 7009). The
token value is the last segment of the request path. -/
def RevokeToken (cfg : Config) (req : TokenRequest) : JSONResponse :=
  let username := (req.basicAuth.map Prod.fst).getD ""
  let password := (req.basicAuth.map Prod.snd).getD ""
  match req.basicAuth, cfg.provider.authenticateClient username password with
  | none, _ => jsonResp 400 (.err ErrUnauthorizedClient)
  | some _, .error _ => jsonResp 400 (.err ErrUnauthorizedClient)
  | some _, .ok cinfo =>
    let token := pathBase req.urlPath
    match cfg.provider.tokenInfo token with
    | .error _ => jsonResp 503 .empty
    | .ok tokenInfo =>
      if tokenInfo.clientID ≠ cinfo.id then
        jsonResp 400 (.err ErrClientIDMismatch)
      else
        match cfg.provider.revokeToken token with
        | some _ => jsonResp 503 .empty
        | none => jsonResp 200 .empty

/-! ## Authorization endpoint: src/authorizations.go -/

/-- The parameter names CreateGrant collects from the request. -/
def authzVars : List String :=
  ["client_id", "state", "redirect_uri", "scope", "response_type"]

/-- The params map CreateGrant builds: every name of authzVars is a key,
mapped to req.FormValue of it (the empty string when absent). -/
def authzParams (req : AuthzRequest) : List (String × String) :=
  authzVars.map (fun v => (v, aformValue req v))

/-- authCodeGrant1 from src/authorizations.go: the shared validation
ladder. `.error r` means the response `r` was already written (the Go
function returned nil); `.ok d` is the validated authz-data. `parse`
stands for net/url.Parse; the comma-ok read of params["redirect_uri"] is
the List.lookup, `none` standing for an absent key. -/
def authCodeGrant1 (p : Provider) (parse : String → Option URL)
    (params : List (String × String)) : Except AuthzResponse AuthzData :=
  let clientID := mapGet params "client_id"
  if clientID = "" then
    .error (.html 200 (AuthzData.ofErrors [ErrClientIDMissing]))
  else
    match p.clientInfo clientID with
    | .error e => .error (.html 200 (AuthzData.ofErrors [ErrServerError "" e]))
    | .ok cinfo =>
      if cinfo = Client.zero then
        .error (.html 200 (AuthzData.ofErrors [ErrClientIDNotFound]))
      else
        let redirectRes : Except AuthzResponse URL :=
          match params.lookup "redirect_uri" with
          | some u =>
            match parse u with
            | none => .error (.html 200 (AuthzData.ofErrors [ErrRedirectURLInvalid]))
            | some ru => .ok ru
          | none => .ok cinfo.redirectURL
        match redirectRes with
        | .error r => .error r
        | .ok redirectURL =>
          if redirectURL.scheme ≠ "https" then
            .error (.html 200 (AuthzData.ofErrors [ErrRedirectURLInvalid]))
          else if redirectURL.toString ≠ cinfo.redirectURL.toString then
            .error (.html 200 (AuthzData.ofErrors [ErrRedirectURLMismatch]))
          else
            let state := mapGet params "state"
            if state = "" then
              .error (.redirect 302 (EncodeErrInURI redirectURL (ErrStateRequired state)))
            else
              let grantType := mapGet params "response_type"
              if grantType ≠ "code" ∧ grantType ≠ "token" then
                .error (.redirect 302
                  (EncodeErrInURI redirectURL (ErrUnsupportedResponseType state)))
              else
                let scope := mapGet params "scope"
                if scope = "" then
                  .error (.redirect 302 (EncodeErrInURI redirectURL (ErrScopeRequired state)))
                else
                  match p.scopesInfo scope with
                  | .error e =>
                    .error (.redirect 302 (EncodeErrInURI redirectURL (ErrServerError state e)))
                  | .ok scopes =>
                    .ok { client := cinfo, scopes := scopes, errors := [],
                          grantType := grantType, state := state }

/-- The fragment pairs implicitGrant builds (the url.Values literal, in
source order; url.Values is a map, so only the key set is significant). -/
def implicitFragPairs (token : Token) (state : String) : List (String × String) :=
  [("access_token", token.value),
   ("token_type", token.type),
   ("expires_in", token.expiresIn),
   ("scope", Scopes.encode token.scopes),
   ("state", state)]

/-- implicitGrant from src/authorizations.go: issues an access token with
refreshToken=false and delivers it in the URL fragment (the source sets
Fragment to "#" plus the encoded values, producing the double-# quirk its
own tests strip). -/
def implicitGrant (cfg : Config) (authzData : AuthzData) : AuthzResponse :=
  let u := authzData.client.redirectURL
  let noAuthzGrant := { Grant.zero with scopes := authzData.scopes }
  match cfg.provider.genToken noAuthzGrant authzData.client false cfg.tokenExpiration with
  | .error e =>
    .redirect 302 (EncodeErrInURI u (ErrServerError authzData.state e))
  | .ok token =>
    .redirect 302 { u with fragment := "#" ++ encodeQuery (implicitFragPairs token authzData.state) }

/-- CreateGrant from src/authorizations.go: GET renders the consent form,
POST acts on consent (authorization-code or implicit flow). -/
def CreateGrant (parse : String → Option URL) (cfg : Config) (req : AuthzRequest) :
    AuthzResponse :=
  if !cfg.provider.isUserAuthenticated then
    .redirect 302
      { cfg.loginURL with
        query := setParam cfg.loginURL.query cfg.loginRedirectParam req.urlString }
  else
    let params := authzParams req
    match authCodeGrant1 cfg.provider parse params with
    | .error resp => resp
    | .ok authzData =>
      if req.method = "GET" then
        .html 200 authzData
      else if mapGet params "response_type" = "token" then
        implicitGrant cfg authzData
      else
        match cfg.provider.genGrant authzData.client authzData.scopes cfg.authzExpiration with
        | .error e => .html 200 (AuthzData.ofErrors [ErrServerError "" e])
        | .ok grant =>
          let u := authzData.client.redirectURL
          let q := setParam u.query "code" grant.code
          let q := setParam q "state" authzData.state
          .redirect 302 { u with query := q }

/-! ## Resource gate: AuthzHandler from src/unnamed/part_004 -/

/-- A request to the resource gate: the Authorization header (empty when
absent), the form values and the request URL. -/
structure GateRequest where
  authHeader : String
  form : List (String × String)
  url : URL
deriving DecidableEq, Repr

/-- The gate's outcome: a response written by the middleware (status and
optional error body, via render.Unauthorized), or the downstream handler
invoked. -/
inductive GateResult
  | resp (status : Nat) (body : Option AuthzError)
  | next
deriving DecidableEq, Repr

/-- AuthzHandler from src/unnamed/part_004: bearer-token extraction,
token status check, and the scope-coverage loop (each token scope id must
be a strings.Contains-substring of the encoded resource scopes; the
early-returning loop is List.all, which yields the same response). -/
def AuthzHandler (p : Provider) (req : GateRequest) : GateResult :=
  let tokenRes : Except GateResult String :=
    if req.authHeader = "" then
      .ok (mapGet req.form "access_token")
    else if !("Bearer ".isPrefixOf req.authHeader) then
      .error (.resp 401 (some ErrUnsupportedTokenType))
    else
      .ok (stripBearer req.authHeader "Bearer ")
  match tokenRes with
  | .error r => r
  | .ok token =>
    if token = "" then
      .resp 401 none
    else
      match p.tokenInfo token with
      | .error e => .resp 401 (some (ErrServerError "" e))
      | .ok tokenInfo =>
        if tokenInfo.status = TokenExpired ∨ tokenInfo.status = TokenRevoked then
          .resp 401 (some ErrInvalidToken)
        else
          match p.resourceScopes req.url with
          | .error e => .resp 401 (some (ErrServerError "" e))
          | .ok scopes =>
            if tokenInfo.scopes.all (fun s => strContains (Scopes.encode scopes) s.id) then
              .next
            else
              .resp 403 (some ErrInsufficientScope)

/-! ## Spec-side predicates and concrete fixtures -/

/-- Spec-side (claim C1 wording): the effective redirect URL has been
validated — client_id present, client resolved and non-zero, the
effective redirect URL parseable, HTTPS, and string-equal to the client's
registered one. -/
def specRedirectTrusted (p : Provider) (parse : String → Option URL)
    (params : List (String × String)) : Bool :=
  (mapGet params "client_id" != "") &&
  (match p.clientInfo (mapGet params "client_id") with
   | .error _ => false
   | .ok cinfo =>
     (cinfo != Client.zero) &&
     (match (match params.lookup "redirect_uri" with
             | some u => parse u
             | none => some cinfo.redirectURL) with
      | none => false
      | some ru => (ru.scheme == "https") && (ru.toString == cinfo.redirectURL.toString)))

/-- Spec-side: membership of a scope id in a scope set by id equality
(what the claims mean by "member of the scope set"). -/
def memberById (scopes : Scopes) (id : String) : Bool :=
  scopes.any (fun s => s.id == id)

/-- Split a character list at the first occurrence of `://` (structural
recursion, for kernel evaluation). -/
def splitScheme : List Char → List Char → Option (List Char × List Char)
  | [], _ => none
  | c :: rest, acc =>
    if [':', '/', '/'].isPrefixOf (c :: rest) then some (acc.reverse, rest.drop 2)
    else splitScheme rest (c :: acc)

/-- A model of net/url.Parse adequate for the concrete strings used here:
the empty string parses to the zero URL (as in Go), `scheme://rest`
splits at the first separator, a bare string parses with no scheme. -/
def goUrlParse (s : String) : Option URL :=
  if s = "" then some URL.zero
  else
    match splitScheme s.data [] with
    | none => some { scheme := "", base := s, query := [], fragment := "" }
    | some (sch, rest) =>
      some { scheme := String.mk sch, base := String.mk rest, query := [], fragment := "" }

/-- The registered redirect URL of the test client
(https://example.com/oauth2/callback, as in the repository's tests). -/
def urlCallback : URL :=
  { scheme := "https", base := "example.com/oauth2/callback", query := [], fragment := "" }

/-- A registered client, mirroring the test provider's client. -/
def clientTest : Client :=
  { id := "test_client_id", name := "Test Client", description := "",
    logoURL := URL.zero, homepageURL := URL.zero, redirectURL := urlCallback }

/-- A provider with innocuous concrete behaviour (mirroring the shape of
the in-src test providers): fixtures below override single fields. -/
def baseProvider : Provider where
  authenticateClient := fun _ _ => .ok clientTest
  authenticateUser := fun _ _ => true
  clientInfo := fun _ => .ok clientTest
  grantInfo := fun _ => .ok Grant.zero
  tokenInfo := fun _ => .ok Token.zero
  scopesInfo := fun s => .ok [⟨s, "test scope"⟩]
  resourceScopes := fun _ => .ok []
  genGrant := fun c sc _ =>
    .ok { Grant.zero with
            code := "grant-code-1", clientID := c.id,
            redirectURL := c.redirectURL, scopes := sc }
  genToken := fun g c issueRefresh _ =>
    .ok { Token.zero with
            value := "tok-1", type := "bearer", expiresIn := "600",
            refreshToken := if issueRefresh then "rtok-1" else "",
            scopes := g.scopes, clientID := c.id }
  revokeToken := fun _ => none
  refreshToken := fun _ sc =>
    .ok { Token.zero with
            value := "tok-2", type := "bearer", expiresIn := "600",
            refreshToken := "rtok-2", scopes := sc }
  isUserAuthenticated := true

/-- A concrete configuration over baseProvider. -/
def baseConfig : Config where
  provider := baseProvider
  loginURL := { scheme := "https", base := "api.hooklift.io/accounts/login",
                query := [], fragment := "" }
  loginRedirectParam := "redirect_to"
  authzExpiration := 60
  tokenExpiration := 600

/-- Override the status of a token (used to compare handler runs that
differ only in the stored token's status). -/
def setTokenStatus (t : Token) (s : String) : Token := { t with status := s }

/-- The provider whose token lookups report status `s` instead of the
underlying one, all else unchanged. -/
def overrideTokenStatus (p : Provider) (s : String) : Provider :=
  { p with tokenInfo := fun c => (p.tokenInfo c).map (fun t => setTokenStatus t s) }

/-- Modelled from the spec: a storage-backed token_info. The staged
test-provider revisions return the zero-valued Token for an absent key
(a Go map read), and spec sections 4.3 and 9 fix that convention
("grant_info: missing code returns zero-value Grant", "the source
frequently checks for zero-valued structs"). -/
def storeTokenInfo (store : List (String × Token)) (v : String) : Except GoErr Token :=
  .ok ((store.lookup v).getD Token.zero)

/-- Modelled from the spec: revoke_token "Idempotent. Removes from both
indexes" (spec section 4.3); the store after a successful revocation. -/
def storeDelete (store : List (String × Token)) (v : String) : List (String × Token) :=
  store.filter (fun kv => kv.1 ≠ v)

/-- The revocation fixture's configuration over a given token store. -/
def revConfig (store : List (String × Token)) : Config :=
  { baseConfig with provider := { baseProvider with tokenInfo := storeTokenInfo store } }

/-- An access token of the test client, present in the store before the
first revocation. -/
def tokRev : Token := { Token.zero with value := "t1", clientID := "test_client_id" }

/-- The DELETE revocation request naming token t1. -/
def reqRev : TokenRequest :=
  { basicAuth := some ("test_client_id", "pw"), form := [], urlPath := "/oauth2/tokens/t1" }

/-- Token-exchange request with an empty code (the code form value is
absent, so FormValue yields ""). -/
def reqEmptyCode : TokenRequest :=
  { basicAuth := some ("test_client_id", "pw"),
    form := [("grant_type", "authorization_code")], urlPath := "" }

/-- A grant that was already used. -/
def grantUsed : Grant :=
  { Grant.zero with
      code := "g1", clientID := "test_client_id",
      redirectURL := urlCallback, isUsed := true }

/-- Configuration whose provider knows the used grant g1. -/
def cfgUsedGrant : Config :=
  { baseConfig with provider :=
    { baseProvider with grantInfo := fun c => if c = "g1" then .ok grantUsed else .ok Grant.zero } }

/-- The exchange request presenting the used grant g1. -/
def reqUsedGrant : TokenRequest :=
  { basicAuth := some ("test_client_id", "pw"),
    form := [("grant_type", "authorization_code"), ("code", "g1")], urlPath := "" }

/-- A stored refresh token whose single scope id is "foobar". -/
def tokFoobar : Token :=
  { Token.zero with
      value := "rt1", clientID := "test_client_id",
      refreshToken := "rt1", scopes := [⟨"foobar", "d"⟩] }

/-- Configuration whose provider knows the stored refresh token rt1. -/
def cfgFoobar : Config :=
  { baseConfig with provider :=
    { baseProvider with tokenInfo := fun c => if c = "rt1" then .ok tokFoobar else .ok Token.zero } }

/-- The refresh request presenting rt1 and asking for scope "foo" (not a
member of the stored scope set, but a substring of "foobar"). -/
def reqFoo : TokenRequest :=
  { basicAuth := some ("test_client_id", "pw"),
    form := [("grant_type", "refresh_token"), ("refresh_token", "rt1"), ("scope", "foo")],
    urlPath := "" }

/-- Configuration whose provider fails every grant lookup with message
"boom". -/
def cfgGrantBoom : Config :=
  { baseConfig with provider := { baseProvider with grantInfo := fun _ => .error "boom" } }

/-- The exchange request hitting the failing grant lookup. -/
def reqGrantBoom : TokenRequest :=
  { basicAuth := some ("test_client_id", "pw"),
    form := [("grant_type", "authorization_code"), ("code", "x")], urlPath := "" }

/-- A found, active token whose single scope id "rea" is a proper
substring of the required scope id "read". -/
def tokRea : Token := { Token.zero with value := "tv", scopes := [⟨"rea", "d"⟩] }

/-- Gate provider: token tv resolves to tokRea; the resource requires
scope "read". -/
def provGateRea : Provider :=
  { baseProvider with
      tokenInfo := fun v => if v = "tv" then .ok tokRea else .ok Token.zero,
      resourceScopes := fun _ => .ok [⟨"read", "d"⟩] }

/-- The gate request carrying tv as a form access_token. -/
def greqTv : GateRequest :=
  { authHeader := "", form := [("access_token", "tv")], url := URL.zero }

/-- Gate witness fixture: a token whose scope "read" exactly matches the
required scope set. -/
def tokRead : Token := { Token.zero with value := "tw", scopes := [⟨"read", "d"⟩] }

/-- Gate witness provider: tw resolves to tokRead. -/
def provGateRead : Provider :=
  { baseProvider with
      tokenInfo := fun v => if v = "tw" then .ok tokRead else .ok Token.zero,
      resourceScopes := fun _ => .ok [⟨"read", "d"⟩] }

/-- The gate witness request carrying tw. -/
def greqTw : GateRequest :=
  { authHeader := "", form := [("access_token", "tw")], url := URL.zero }

/-- An authorization request that omits redirect_uri (so FormValue yields
"" for it) but is otherwise valid. -/
def reqNoRedirect : AuthzRequest :=
  { method := "GET",
    form := [("client_id", "test_client_id"), ("state", "st"),
             ("scope", "read"), ("response_type", "code")],
    urlString := "https://example.com/oauth2/authzs" }

/-- A complete implicit-flow consent POST. -/
def reqImplicit : AuthzRequest :=
  { method := "POST",
    form := [("client_id", "test_client_id"), ("state", "st"),
             ("redirect_uri", "https://example.com/oauth2/callback"),
             ("scope", "read"), ("response_type", "token")],
    urlString := "https://example.com/oauth2/authzs" }

/-- The authz-data authCodeGrant1 produces for reqImplicit over
baseProvider. -/
def dataImplicit : AuthzData :=
  { client := clientTest, scopes := [⟨"read", "test scope"⟩], errors := [],
    grantType := "token", state := "st" }

/-- The token baseProvider.genToken issues for the implicit flow
(issueRefresh = false, so no refresh token value). -/
def tokImplicit : Token :=
  { Token.zero with
      value := "tok-1", type := "bearer", expiresIn := "600",
      refreshToken := "", scopes := [⟨"read", "test scope"⟩],
      clientID := "test_client_id" }

/-- A refresh request with no scope parameter, naming rt1. -/
def reqRefreshPlain : TokenRequest :=
  { basicAuth := some ("test_client_id", "pw"),
    form := [("grant_type", "refresh_token"), ("refresh_token", "rt1")], urlPath := "" }

/-! ## Theorems settling the claims -/

/-- C9: on an authorization_code exchange whose code form value is empty,
the endpoint does answer 400 with code unauthorized_client, but the
description rendered is the unmodified package-level ErrUnauthorizedClient
text, not "Authorization code can't be empty." as claimed: the source sets
that description on a local copy and then renders the wrong variable. -/
theorem emptyCodeDescriptionUnchanged :
    IssueToken baseConfig reqEmptyCode = jsonResp 400 (.err ErrUnauthorizedClient)
    ∧ ErrUnauthorizedClient.code = "unauthorized_client"
    ∧ ErrUnauthorizedClient.description ≠ "Authorization code can't be empty." := by
  decide

/-- C8: revocation through the endpoint is not idempotent. With the store
containing token t1 the DELETE returns 200; with t1 already removed (as
the first revocation leaves it), the zero-valued token_info result fails
the client-ownership check and the identical request returns 400
ErrClientIDMismatch, not 200. -/
theorem doubleRevokeNot200 :
    RevokeToken (revConfig [("t1", tokRev)]) reqRev = jsonResp 200 .empty
    ∧ RevokeToken (revConfig (storeDelete [("t1", tokRev)] "t1")) reqRev
        = jsonResp 400 (.err ErrClientIDMismatch)
    ∧ jsonResp 400 (.err ErrClientIDMismatch) ≠ jsonResp 200 .empty := by
  decide

/-- C4 counterexample: when the provider's grant lookup fails with message
"boom", the token endpoint replies 400 with code invalid_grant — not
server_error — and the provider's message is the error_description,
contradicting the claim on both counts. -/
theorem providerErrorSurfacedCounterexample :
    IssueToken cfgGrantBoom reqGrantBoom
      = jsonResp 400 (.err { ErrInvalidGrant with description := "boom" })
    ∧ ({ ErrInvalidGrant with description := "boom" } : AuthzError).code ≠ "server_error"
    ∧ strContains ({ ErrInvalidGrant with description := "boom" } : AuthzError).description
        "boom" = true := by
  decide

/-- C3: the refresh scope check is strings.Contains on the stringified
stored scopes, not id membership: requested scope id "foo" is not a member
of the stored scope set (single id "foobar") by id equality, yet the
request succeeds with 200 and the new token carries exactly the widened
requested scope. -/
theorem refreshScopeSubstringWidens :
    refreshToken cfgFoobar clientTest reqFoo
      = jsonResp 200 (.token { Token.zero with
          value := "tok-2", type := "bearer", expiresIn := "600",
          refreshToken := "rtok-2", scopes := [⟨"foo", "test scope"⟩] })
    ∧ cfgFoobar.provider.tokenInfo (formValue reqFoo "refresh_token") = .ok tokFoobar
    ∧ cfgFoobar.provider.scopesInfo (formValue reqFoo "scope") = .ok [⟨"foo", "test scope"⟩]
    ∧ memberById tokFoobar.scopes "foo" = false := by
  decide

/-- C5: the params map always contains the redirect_uri key (FormValue
yields "" when the parameter is absent), so the registered-redirect
fallback is dead code: a request omitting redirect_uri parses "" to the
zero URL, fails the HTTPS check and is rejected with ErrRedirectURLInvalid
even though the client's registered redirect URL is HTTPS. -/
theorem omittedRedirectURIRejected :
    CreateGrant goUrlParse baseConfig reqNoRedirect
      = .html 200 (AuthzData.ofErrors [ErrRedirectURLInvalid])
    ∧ (authzParams reqNoRedirect).lookup "redirect_uri" = some ""
    ∧ clientTest.redirectURL.scheme = "https" := by
  decide

/-- C6 counterexample: the gate's scope check is strings.Contains over the
encoded required-scope string: the token's scope id "rea" is not a member
of the required set (single id "read") by id equality, yet the downstream
handler is invoked. -/
theorem gateScopeSubstringCounterexample :
    AuthzHandler provGateRea greqTv = .next
    ∧ provGateRea.resourceScopes greqTv.url = .ok [⟨"read", "d"⟩]
    ∧ memberById [⟨"read", "d"⟩] "rea" = false := by
  decide

/-- C2: an exchange presenting a non-empty code whose grant is revoked,
expired or used is rejected with 400 invalid_grant and the exact
replay-detection description; the response is this constant for every
provider behaviour, so no token is issued. -/
theorem usedGrantRejected (cfg : Config) (cinfo : Client) (req : TokenRequest) (g : Grant)
    (hcode : formValue req "code" ≠ "")
    (hg : cfg.provider.grantInfo (formValue req "code") = .ok g)
    (hflags : (g.isRevoked || g.isExpired || g.isUsed) = true) :
    authCodeGrant2 cfg cinfo req
      = jsonResp 400 (.err { ErrInvalidGrant with
          description := "Grant code was revoked, expired or already used." }) := by
  simp [authCodeGrant2, hcode, hg, hflags]

/-- Witness for C2 at a concrete used grant. -/
theorem usedGrantRejectedWitness :
    authCodeGrant2 cfgUsedGrant clientTest reqUsedGrant
      = jsonResp 400 (.err { ErrInvalidGrant with
          description := "Grant code was revoked, expired or already used." }) :=
  usedGrantRejected cfgUsedGrant clientTest reqUsedGrant grantUsed
    (by decide) (by decide) (by decide)

/-- Status overriding changes no other token field. -/
theorem setTokenStatus_scopes (t : Token) (s : String) :
    (setTokenStatus t s).scopes = t.scopes := rfl

/-- Status overriding changes no other token field. -/
theorem setTokenStatus_clientID (t : Token) (s : String) :
    (setTokenStatus t s).clientID = t.clientID := rfl

/-- C6 amended: for a request carrying a found token that is neither
expired nor revoked, the downstream handler is invoked exactly when every
scope id of the token is a strings.Contains-substring of the space-joined
encoding of the required scope set; otherwise the gate responds 403
insufficient_scope and the downstream handler is not invoked. -/
theorem gateScopeSubstringAmended (p : Provider) (req : GateRequest) (v : String)
    (t : Token) (rs : Scopes)
    (hh : req.authHeader = "")
    (hv : mapGet req.form "access_token" = v)
    (hne : v ≠ "")
    (ht : p.tokenInfo v = .ok t)
    (hst : ¬(t.status = TokenExpired ∨ t.status = TokenRevoked))
    (hrs : p.resourceScopes req.url = .ok rs) :
    (AuthzHandler p req = .next
      ↔ ∀ s ∈ t.scopes, strContains (Scopes.encode rs) s.id = true)
    ∧ (AuthzHandler p req ≠ .next
      → AuthzHandler p req = .resp 403 (some ErrInsufficientScope)) := by
  have hred : AuthzHandler p req
      = (if t.scopes.all (fun s => strContains (Scopes.encode rs) s.id) then .next
         else .resp 403 (some ErrInsufficientScope)) := by
    simp [AuthzHandler, hh, hv, hne, ht, hst, hrs]
  rw [hred]
  by_cases hall : t.scopes.all (fun s => strContains (Scopes.encode rs) s.id) = true
  · rw [if_pos hall]
    exact ⟨⟨fun _ => List.all_eq_true.mp hall, fun _ => rfl⟩, fun h => absurd rfl h⟩
  · rw [if_neg hall]
    exact ⟨⟨fun h => (nomatch h),
           fun hforall => absurd (List.all_eq_true.mpr hforall) hall⟩, fun _ => rfl⟩

/-- Witness for C6's amended theorem: a token whose scope set equals the
required set passes the gate. -/
theorem gateScopeSubstringWitness : AuthzHandler provGateRead greqTw = .next :=
  (gateScopeSubstringAmended provGateRead greqTw "tw" tokRead [⟨"read", "d"⟩]
    rfl rfl (by decide) (by decide) (by decide) (by decide)).1.mpr (by decide)

/-- C7: a successful implicit-flow consent POST redirects to the client's
registered URL with fragment parameters whose keys are exactly
access_token, token_type, expires_in, scope and state — never
refresh_token — and the token delivered is the one gen_token issues with
issueRefresh = false. -/
theorem implicitNoRefreshToken (parse : String → Option URL) (cfg : Config)
    (req : AuthzRequest) (d : AuthzData) (t : Token)
    (hu : cfg.provider.isUserAuthenticated = true)
    (hm : req.method = "POST")
    (h1 : authCodeGrant1 cfg.provider parse (authzParams req) = .ok d)
    (hrt : aformValue req "response_type" = "token")
    (hg : cfg.provider.genToken { Grant.zero with scopes := d.scopes } d.client false
            cfg.tokenExpiration = .ok t) :
    CreateGrant parse cfg req
      = .redirect 302 { d.client.redirectURL with
          fragment := "#" ++ encodeQuery (implicitFragPairs t d.state) }
    ∧ (implicitFragPairs t d.state).map Prod.fst
        = ["access_token", "token_type", "expires_in", "scope", "state"]
    ∧ "refresh_token" ∉ (implicitFragPairs t d.state).map Prod.fst := by
  have hmap : mapGet (authzParams req) "response_type" = aformValue req "response_type" := rfl
  refine ⟨?_, by simp [implicitFragPairs], by simp [implicitFragPairs]⟩
  simp [CreateGrant, hu, h1, hm, hmap, hrt, implicitGrant, hg]

/-- Witness for C7 on a concrete implicit-flow POST. -/
theorem implicitNoRefreshTokenWitness :
    CreateGrant goUrlParse baseConfig reqImplicit
      = .redirect 302 { dataImplicit.client.redirectURL with
          fragment := "#" ++ encodeQuery (implicitFragPairs tokImplicit dataImplicit.state) }
    ∧ (implicitFragPairs tokImplicit dataImplicit.state).map Prod.fst
        = ["access_token", "token_type", "expires_in", "scope", "state"]
    ∧ "refresh_token" ∉ (implicitFragPairs tokImplicit dataImplicit.state).map Prod.fst :=
  implicitNoRefreshToken goUrlParse baseConfig reqImplicit dataImplicit tokImplicit
    rfl rfl (by decide) rfl (by decide)

/-- C10: the refresh_token handler never inspects the stored token's
status: overriding the status reported by token lookups changes nothing
(provided the provider's refresh operation itself ignores status), and a
stored token passing the client and scope checks is refreshed with 200
whatever its status — including expired or revoked. -/
theorem refreshIgnoresStoredStatus (cfg : Config) (cinfo : Client) (req : TokenRequest)
    (s : String) :
    ((∀ t sc, cfg.provider.refreshToken (setTokenStatus t s) sc
        = cfg.provider.refreshToken t sc) →
      refreshToken { cfg with provider := overrideTokenStatus cfg.provider s } cinfo req
        = refreshToken cfg cinfo req)
    ∧ (∀ t nt, cfg.provider.tokenInfo (formValue req "refresh_token") = .ok t →
        formValue req "scope" = "" →
        t.clientID = cinfo.id →
        cfg.provider.refreshToken t t.scopes = .ok nt →
        refreshToken cfg cinfo req = jsonResp 200 (.token nt)) := by
  constructor
  · intro hrt
    cases h : cfg.provider.tokenInfo (formValue req "refresh_token") with
    | error e => simp [refreshToken, overrideTokenStatus, h, Except.map]
    | ok t =>
      simp only [refreshToken, overrideTokenStatus, h, Except.map,
        setTokenStatus_scopes, setTokenStatus_clientID, hrt]
  · intro t nt h1 h2 h3 h4
    simp [refreshToken, h1, h2, h3, h4]

/-- C4 amended: on every token-endpoint provider-error path other than
client authentication (400 unauthorized_client), the authorization_code
grant lookup (400 invalid_grant carrying the provider's message, the
counterexample) and DELETE revocation (503, empty body), the JSON body is
ErrServerError: code server_error with the fixed description, which does
not depend on the provider's message. Conjuncts cover, in order: the
refresh_token grant's token-lookup, scope-lookup and refresh-call
failures (the latter for inherited and for requested scopes), the
client_credentials grant's scope-lookup and token-generation failures,
the password grant's scope-lookup and token-generation failures, the
authorization_code grant's token-generation failure, and the fixed
server_error body itself. -/
theorem providerErrorsWrappedAmended (cfg : Config) (cinfo : Client) (req : TokenRequest)
    (m : GoErr) :
    (cfg.provider.tokenInfo (formValue req "refresh_token") = .error m →
      refreshToken cfg cinfo req = jsonResp 500 (.err (ErrServerError "" m)))
    ∧ (∀ t, cfg.provider.tokenInfo (formValue req "refresh_token") = .ok t →
        formValue req "scope" ≠ "" →
        cfg.provider.scopesInfo (formValue req "scope") = .error m →
        refreshToken cfg cinfo req = jsonResp 500 (.err (ErrServerError "" m)))
    ∧ (∀ t, cfg.provider.tokenInfo (formValue req "refresh_token") = .ok t →
        formValue req "scope" = "" →
        t.clientID = cinfo.id →
        cfg.provider.refreshToken t t.scopes = .error m →
        refreshToken cfg cinfo req = jsonResp 500 (.err (ErrServerError "" m)))
    ∧ (∀ t sc, cfg.provider.tokenInfo (formValue req "refresh_token") = .ok t →
        formValue req "scope" ≠ "" →
        cfg.provider.scopesInfo (formValue req "scope") = .ok sc →
        sc.all (fun s => strContains (StringifyScopes t.scopes) s.id) = true →
        sc.length ≠ 0 →
        t.clientID = cinfo.id →
        cfg.provider.refreshToken t sc = .error m →
        refreshToken cfg cinfo req = jsonResp 500 (.err (ErrServerError "" m)))
    ∧ (formValue req "scope" ≠ "" →
        cfg.provider.scopesInfo (formValue req "scope") = .error m →
        clientCredentialsGrant cfg cinfo req = jsonResp 400 (.err (ErrServerError "" m)))
    ∧ (formValue req "scope" = "" →
        cfg.provider.genToken { Grant.zero with scopes := [] } cinfo false
            cfg.tokenExpiration = .error m →
        clientCredentialsGrant cfg cinfo req = jsonResp 500 (.err (ErrServerError "" m)))
    ∧ (∀ sc, formValue req "scope" ≠ "" →
        cfg.provider.scopesInfo (formValue req "scope") = .ok sc →
        cfg.provider.genToken { Grant.zero with scopes := sc } cinfo false
            cfg.tokenExpiration = .error m →
        clientCredentialsGrant cfg cinfo req = jsonResp 500 (.err (ErrServerError "" m)))
    ∧ (cfg.provider.authenticateUser (formValue req "username")
          (formValue req "password") = true →
        formValue req "scope" ≠ "" →
        cfg.provider.scopesInfo (formValue req "scope") = .error m →
        resourceOwnerCredentialsGrant cfg cinfo req
          = jsonResp 400 (.err (ErrServerError "" m)))
    ∧ (cfg.provider.authenticateUser (formValue req "username")
          (formValue req "password") = true →
        formValue req "scope" = "" →
        cfg.provider.genToken { Grant.zero with scopes := [] } cinfo true
            cfg.tokenExpiration = .error m →
        resourceOwnerCredentialsGrant cfg cinfo req
          = jsonResp 500 (.err (ErrServerError "" m)))
    ∧ (∀ sc, cfg.provider.authenticateUser (formValue req "username")
          (formValue req "password") = true →
        formValue req "scope" ≠ "" →
        cfg.provider.scopesInfo (formValue req "scope") = .ok sc →
        cfg.provider.genToken { Grant.zero with scopes := sc } cinfo true
            cfg.tokenExpiration = .error m →
        resourceOwnerCredentialsGrant cfg cinfo req
          = jsonResp 500 (.err (ErrServerError "" m)))
    ∧ (∀ g, formValue req "code" ≠ "" →
        cfg.provider.grantInfo (formValue req "code") = .ok g →
        (g.isRevoked || g.isExpired || g.isUsed) = false →
        cinfo.redirectURL.toString = g.redirectURL.toString →
        g.clientID = cinfo.id →
        cfg.provider.genToken g cinfo true cfg.tokenExpiration = .error m →
        authCodeGrant2 cfg cinfo req = jsonResp 500 (.err (ErrServerError "" m)))
    ∧ (ErrServerError "" m).code = "server_error"
    ∧ (ErrServerError "" m).description = serverErrorDescription := by
  refine ⟨?_, ?_, ?_, ?_, ?_, ?_, ?_, ?_, ?_, ?_, ?_, rfl, rfl⟩
  · intro h1
    simp [refreshToken, h1]
  · intro t h1 h2 h3
    simp [refreshToken, h1, h2, h3]
  · intro t h1 h2 h3 h4
    simp [refreshToken, h1, h2, h3, h4]
  · intro t sc h1 h2 h3 h4 h5 h6 h7
    simp [refreshToken, h1, h2, h3, h4, h5, h6, h7]
  · intro h1 h2
    simp [clientCredentialsGrant, h1, h2]
  · intro h1 h2
    simp [clientCredentialsGrant, h1, h2]
  · intro sc h1 h2 h3
    simp [clientCredentialsGrant, h1, h2, h3]
  · intro h1 h2 h3
    simp [resourceOwnerCredentialsGrant, h1, h2, h3]
  · intro h1 h2 h3
    simp [resourceOwnerCredentialsGrant, h1, h2, h3]
  · intro sc h1 h2 h3 h4
    simp [resourceOwnerCredentialsGrant, h1, h2, h3, h4]
  · intro g h1 h2 h3 h4 h5 h6
    simp [authCodeGrant2, h1, h2, h3, h4, h5, h6]

/-- Encoding an error into a URL's query leaves its scheme unchanged. -/
theorem EncodeErrInURI_scheme (u : URL) (e : AuthzError) :
    (EncodeErrInURI u e).scheme = u.scheme := rfl

/-- C1: authCodeGrant1 delivers an error by 302 redirect only when the
effective redirect URL has been validated (client resolved, URL
parseable, HTTPS, string-equal to the registered one) — and then the
Location keeps the validated HTTPS scheme; whenever that validation
fails, the response is the consent HTML carrying one error and no
redirect is emitted. -/
theorem errRedirectOnlyAfterValidation (p : Provider) (parse : String → Option URL)
    (params : List (String × String)) :
    (∀ u, authCodeGrant1 p parse params = .error (.redirect 302 u) →
      specRedirectTrusted p parse params = true ∧ u.scheme = "https")
    ∧ (specRedirectTrusted p parse params = false →
      ∃ e, authCodeGrant1 p parse params = .error (.html 200 (AuthzData.ofErrors [e]))) := by
  by_cases hc : mapGet params "client_id" = ""
  · refine ⟨fun u h => ?_, fun _ => ⟨ErrClientIDMissing, by simp [authCodeGrant1, hc]⟩⟩
    simp [authCodeGrant1, hc] at h
  · cases hci : p.clientInfo (mapGet params "client_id") with
    | error e =>
      refine ⟨fun u h => ?_, fun _ => ⟨ErrServerError "" e, by simp [authCodeGrant1, hc, hci]⟩⟩
      simp [authCodeGrant1, hc, hci] at h
    | ok cinfo =>
      by_cases hz : cinfo = Client.zero
      · refine ⟨fun u h => ?_,
          fun _ => ⟨ErrClientIDNotFound, by simp [authCodeGrant1, hc, hci, hz]⟩⟩
        simp [authCodeGrant1, hc, hci, hz] at h
      · cases hl : params.lookup "redirect_uri" with
        | none =>
          by_cases hs : cinfo.redirectURL.scheme = "https"
          · have htrust : specRedirectTrusted p parse params = true := by
              simp [specRedirectTrusted, hc, hci, hz, hl, hs]
            refine ⟨fun u h => ⟨htrust, ?_⟩, fun hfalse => by rw [htrust] at hfalse; cases hfalse⟩
            by_cases hst : mapGet params "state" = ""
            · simp [authCodeGrant1, hc, hci, hz, hl, hs, hst] at h
              rw [← h, EncodeErrInURI_scheme]
              exact hs
            · by_cases hgt : mapGet params "response_type" ≠ "code"
                  ∧ mapGet params "response_type" ≠ "token"
              · simp [authCodeGrant1, hc, hci, hz, hl, hs, hst, hgt] at h
                rw [← h, EncodeErrInURI_scheme]
                exact hs
              · by_cases hsc : mapGet params "scope" = ""
                · simp [authCodeGrant1, hc, hci, hz, hl, hs, hst, hgt, hsc] at h
                  rw [← h, EncodeErrInURI_scheme]
                  exact hs
                · cases hsi : p.scopesInfo (mapGet params "scope") with
                  | error e2 =>
                    simp [authCodeGrant1, hc, hci, hz, hl, hs, hst, hgt, hsc, hsi] at h
                    rw [← h, EncodeErrInURI_scheme]
                    exact hs
                  | ok scopes =>
                    simp [authCodeGrant1, hc, hci, hz, hl, hs, hst, hgt, hsc, hsi] at h
          · refine ⟨fun u h => ?_,
              fun _ => ⟨ErrRedirectURLInvalid, by simp [authCodeGrant1, hc, hci, hz, hl, hs]⟩⟩
            simp [authCodeGrant1, hc, hci, hz, hl, hs] at h
        | some ustr =>
          cases hp : parse ustr with
          | none =>
            refine ⟨fun u h => ?_,
              fun _ => ⟨ErrRedirectURLInvalid, by simp [authCodeGrant1, hc, hci, hz, hl, hp]⟩⟩
            simp [authCodeGrant1, hc, hci, hz, hl, hp] at h
          | some ru =>
            by_cases hs : ru.scheme = "https"
            · by_cases hts : ru.toString = cinfo.redirectURL.toString
              · have htrust : specRedirectTrusted p parse params = true := by
                  simp [specRedirectTrusted, hc, hci, hz, hl, hp, hs, hts]
                refine ⟨fun u h => ⟨htrust, ?_⟩,
                  fun hfalse => by rw [htrust] at hfalse; cases hfalse⟩
                by_cases hst : mapGet params "state" = ""
                · simp [authCodeGrant1, hc, hci, hz, hl, hp, hs, hts, hst] at h
                  rw [← h, EncodeErrInURI_scheme]
                  exact hs
                · by_cases hgt : mapGet params "response_type" ≠ "code"
                      ∧ mapGet params "response_type" ≠ "token"
                  · simp [authCodeGrant1, hc, hci, hz, hl, hp, hs, hts, hst, hgt] at h
                    rw [← h, EncodeErrInURI_scheme]
                    exact hs
                  · by_cases hsc : mapGet params "scope" = ""
                    · simp [authCodeGrant1, hc, hci, hz, hl, hp, hs, hts, hst, hgt, hsc] at h
                      rw [← h, EncodeErrInURI_scheme]
                      exact hs
                    · cases hsi : p.scopesInfo (mapGet params "scope") with
                      | error e2 =>
                        simp [authCodeGrant1, hc, hci, hz, hl, hp, hs, hts, hst, hgt,
                          hsc, hsi] at h
                        rw [← h, EncodeErrInURI_scheme]
                        exact hs
                      | ok scopes =>
                        simp [authCodeGrant1, hc, hci, hz, hl, hp, hs, hts, hst, hgt,
                          hsc, hsi] at h
              · refine ⟨fun u h => ?_, fun _ => ⟨ErrRedirectURLMismatch,
                  by simp [authCodeGrant1, hc, hci, hz, hl, hp, hs, hts]⟩⟩
                simp [authCodeGrant1, hc, hci, hz, hl, hp, hs, hts] at h
            · refine ⟨fun u h => ?_, fun _ => ⟨ErrRedirectURLInvalid,
                by simp [authCodeGrant1, hc, hci, hz, hl, hp, hs]⟩⟩
              simp [authCodeGrant1, hc, hci, hz, hl, hp, hs] at h

end OAuth2
